import Mathlib

/-!
Verification of the name-normalization and link-suppression core of
proneta2obsidian.py, shallowly embedded in Lean 4.

Strings are modelled through their character lists. The regular expression
substitution re.sub of the pattern xd followed by a digit, the two
str.replace calls, and the final conditional truncation of
clean_station_name are embedded as structurally recursive functions that
scan the character list left to right, exactly like the Python string
primitives do. The digit and lower-case classes are taken over the ASCII
range, the alphabet actually exercised by the tool.

The link-policy of parse_xml_and_generate_markdown and generate_markdown
is embedded as membership functions over the device list: the Python sets
devices_referenced_by_unmanaged, devices_referenced_by_scalance and
devices_referenced_by_switches become decidable membership predicates,
and the per-reference decision should_disable_link combines the
per-device disable_links flag of the main loop with the SCALANCE branch
of generate_markdown.
-/

/-- Rule 1 of clean_station_name: re.sub of the pattern xd followed by a
digit, removing the two marker characters and keeping the digit, scanning
left to right without overlap. -/
def step1 : List Char → List Char
  | c1 :: c2 :: c3 :: rest =>
    if c1 = 'x' ∧ c2 = 'd' ∧ c3.isDigit = true then step1 (c3 :: rest)
    else c1 :: step1 (c2 :: c3 :: rest)
  | l => l

/-- Rule 2 of clean_station_name: str.replace of xb by an underscore. -/
def step2 : List Char → List Char
  | c1 :: c2 :: rest =>
    if c1 = 'x' ∧ c2 = 'b' then '_' :: step2 rest
    else c1 :: step2 (c2 :: rest)
  | l => l

/-- Rule 3 of clean_station_name: str.replace of xa by a space. -/
def step3 : List Char → List Char
  | c1 :: c2 :: rest =>
    if c1 = 'x' ∧ c2 = 'a' then ' ' :: step3 rest
    else c1 :: step3 (c2 :: rest)
  | l => l

/-- Occurrence test for the marker xd immediately followed by a digit. -/
def hasXdDigit : List Char → Bool
  | c1 :: c2 :: c3 :: rest =>
    if c1 = 'x' ∧ c2 = 'd' ∧ c3.isDigit = true then true
    else hasXdDigit (c2 :: c3 :: rest)
  | _ => false

/-- Occurrence test for the marker xb. -/
def hasXb : List Char → Bool
  | c1 :: c2 :: rest =>
    if c1 = 'x' ∧ c2 = 'b' then true else hasXb (c2 :: rest)
  | _ => false

/-- Occurrence test for the marker xa. -/
def hasXa : List Char → Bool
  | c1 :: c2 :: rest =>
    if c1 = 'x' ∧ c2 = 'a' then true else hasXa (c2 :: rest)
  | _ => false

/-- Occurrence test for the two characters xd, with or without a digit. -/
def hasXd : List Char → Bool
  | c1 :: c2 :: rest =>
    if c1 = 'x' ∧ c2 = 'd' then true else hasXd (c2 :: rest)
  | _ => false

/-- The local variable cleaned of clean_station_name after all three
substitution rules have run. -/
def cleaned_of (name : String) : List Char := step3 (step2 (step1 name.data))

/-- clean_station_name from proneta2obsidian.py. The empty string is
returned unchanged; otherwise the three substitutions run in order, and
the Python slice cleaned[:-4] is applied exactly when the fully
substituted string differs from the original input. -/
def clean_station_name (name : String) : String :=
  if name = "" then name
  else if cleaned_of name = name.data then String.mk (cleaned_of name)
  else String.mk ((cleaned_of name).take ((cleaned_of name).length - 4))

/-- One Port element, reduced to the field the link policy reads: an empty
RemoteNameOfStation stands for an unconnected port. -/
structure Port where
  remoteNameOfStation : String
deriving DecidableEq

/-- One Device element, reduced to the fields the normalizer and the link
policy read; an empty string stands for a missing XML field. -/
structure Device where
  nameOfStation : String
  deviceType : String
  ipAddress : String
  ports : List Port
deriving DecidableEq

/-- Python str.lower over the ASCII range. -/
def lowerStr (s : String) : String := String.mk (s.data.map Char.toLower)

/-- Helper for substring search: does the second list start with the
first one. -/
def startsWithCL : List Char → List Char → Bool
  | [], _ => true
  | _ :: _, [] => false
  | p :: ps, c :: cs => p == c && startsWithCL ps cs

/-- Python substring membership, pattern second. -/
def containsCL : List Char → List Char → Bool
  | [], pat => startsWithCL pat []
  | c :: rest, pat => startsWithCL pat (c :: rest) || containsCL rest pat

/-- Substring membership on strings, mirroring the Python in operator. -/
def containsSubstr (s pat : String) : Bool := containsCL s.data pat.data

/-- Case-insensitive device-type test for unmanaged switches. -/
def is_unmanaged (d : Device) : Bool :=
  containsSubstr (lowerStr d.deviceType) "unmanaged switch"

/-- Case-insensitive device-type test for SCALANCE devices. -/
def is_scalance (d : Device) : Bool :=
  containsSubstr (lowerStr d.deviceType) "scalance"

/-- Condition A of the main loop: the device is neither an unmanaged
switch nor a SCALANCE device. -/
def is_not_switch (d : Device) : Bool := !is_unmanaged d && !is_scalance d

/-- name_of_station_raw of the main loop and of generate_markdown: the raw
NameOfStation, or the DeviceType and IpAddress fallback when it is empty,
with the get_text defaults unknown and no-ip. -/
def name_of_station_raw (d : Device) : String :=
  if d.nameOfStation = "" then
    (if d.deviceType = "" then "unknown" else d.deviceType) ++ "_" ++
      (if d.ipAddress = "" then "no-ip" else d.ipAddress)
  else d.nameOfStation

/-- The nonempty RemoteNameOfStation values of the device ports, the
values the set-building pass inserts. -/
def connected_remote_stations (d : Device) : List String :=
  (d.ports.map Port.remoteNameOfStation).filter (fun r => r != "")

/-- Membership in the Python set devices_referenced_by_unmanaged. -/
def devices_referenced_by_unmanaged (devs : List Device) (r : String) : Bool :=
  devs.any (fun d => is_unmanaged d && (connected_remote_stations d).contains r)

/-- Membership in the Python set devices_referenced_by_scalance. -/
def devices_referenced_by_scalance (devs : List Device) (r : String) : Bool :=
  devs.any (fun d => is_scalance d && (connected_remote_stations d).contains r)

/-- Membership in the Python set devices_referenced_by_switches. -/
def devices_referenced_by_switches (devs : List Device) (r : String) : Bool :=
  devs.any (fun d => (is_unmanaged d || is_scalance d) && (connected_remote_stations d).contains r)

/-- Membership in scalance_dual_referenced, the intersection of the
unmanaged and SCALANCE reference sets. -/
def scalance_dual_referenced (devs : List Device) (r : String) : Bool :=
  devices_referenced_by_unmanaged devs r && devices_referenced_by_scalance devs r

/-- The per-device disable_links flag of the main loop: the subject is not
a switch and its own raw station name is referenced by some switch. -/
def disable_links (devs : List Device) (d : Device) : Bool :=
  is_not_switch d && devices_referenced_by_switches devs (name_of_station_raw d)

/-- should_disable_link of generate_markdown for the port with raw remote
station r: the per-device flag, or the SCALANCE branch testing r against
scalance_dual_referenced. The Python truthiness guard on the passed set is
dropped because membership in an empty set is false anyway. -/
def should_disable_link (devs : List Device) (d : Device) (r : String) : Bool :=
  disable_links devs d || (is_scalance d && scalance_dual_referenced devs r)

/-- Device roles as named by the specification, with SCALANCE taking
precedence when a pathological type string matches both substrings. -/
inductive Role
  | unmanaged
  | scalance
  | ordinary
deriving DecidableEq

/-- Role classification of a device. -/
def role (d : Device) : Role :=
  if is_scalance d = true then Role.scalance
  else if is_unmanaged d = true then Role.unmanaged
  else Role.ordinary

/-- The displayed station name of a device note. -/
def name_of_station (d : Device) : String := clean_station_name (name_of_station_raw d)

/-- The displayed name of a referenced remote station. -/
def remote_station (r : String) : String := clean_station_name r

/-- The H1 title line of the generated note. -/
def title_line (d : Device) : String := "# " ++ name_of_station d ++ "\n"

/-- The Name of Station line of the generated note. -/
def name_of_station_line (d : Device) : String :=
  "- **Name of Station**: " ++ name_of_station d ++ "\n"

/-- The Remote Station line of the generated note, plain or linked
according to the suppression decision. -/
def remote_station_line (suppress : Bool) (r : String) : String :=
  if suppress then "- **Remote Station**: " ++ remote_station r ++ "\n"
  else "- **Remote Station**: [[" ++ remote_station r ++ "]]\n"

/-- Example device: an unmanaged switch referencing leaf1. -/
def exUnmanaged : Device :=
  { nameOfStation := "usw1", deviceType := "Unmanaged Switch", ipAddress := "10.0.0.1",
    ports := [{ remoteNameOfStation := "leaf1" }] }

/-- Example device: a SCALANCE switch referencing leaf1. -/
def exScalance : Device :=
  { nameOfStation := "sc1", deviceType := "SCALANCE X208", ipAddress := "10.0.0.2",
    ports := [{ remoteNameOfStation := "leaf1" }] }

/-- Example device: the ordinary station leaf1 itself. -/
def exLeaf : Device :=
  { nameOfStation := "leaf1", deviceType := "PLC S7-1200", ipAddress := "10.0.0.3",
    ports := [{ remoteNameOfStation := "usw1" }] }

/-- Example device: an ordinary station, not referenced by any switch,
whose port references leaf1. -/
def exOrdinary : Device :=
  { nameOfStation := "dev2", deviceType := "PLC", ipAddress := "10.0.0.4",
    ports := [{ remoteNameOfStation := "leaf1" }] }

theorem step1_id (l : List Char) (h : hasXdDigit l = false) : step1 l = l := by
  induction l using step1.induct with
  | case1 c1 c2 c3 rest hcond ih =>
      rw [hasXdDigit, if_pos hcond] at h
      exact absurd h (by simp)
  | case2 c1 c2 c3 rest hcond ih =>
      rw [hasXdDigit, if_neg hcond] at h
      rw [step1, if_neg hcond, ih h]
  | case3 l hl =>
      rw [step1]
      exact hl

theorem step2_id (l : List Char) (h : hasXb l = false) : step2 l = l := by
  induction l using step2.induct with
  | case1 c1 c2 rest hcond ih =>
      rw [hasXb, if_pos hcond] at h
      exact absurd h (by simp)
  | case2 c1 c2 rest hcond ih =>
      rw [hasXb, if_neg hcond] at h
      rw [step2, if_neg hcond, ih h]
  | case3 l hl =>
      rw [step2]
      exact hl

theorem step3_id (l : List Char) (h : hasXa l = false) : step3 l = l := by
  induction l using step3.induct with
  | case1 c1 c2 rest hcond ih =>
      rw [hasXa, if_pos hcond] at h
      exact absurd h (by simp)
  | case2 c1 c2 rest hcond ih =>
      rw [hasXa, if_neg hcond] at h
      rw [step3, if_neg hcond, ih h]
  | case3 l hl =>
      rw [step3]
      exact hl

theorem clean_fixed_of_no_markers (s : String) (h1 : hasXdDigit s.data = false)
    (h2 : hasXb s.data = false) (h3 : hasXa s.data = false) :
    clean_station_name s = s := by
  have hc : cleaned_of s = s.data := by
    rw [cleaned_of, step1_id s.data h1, step2_id s.data h2, step3_id s.data h3]
  by_cases hs : s = ""
  · rw [clean_station_name, if_pos hs]
  · rw [clean_station_name, if_neg hs, if_pos hc, hc]

theorem any_perm {α : Type} {l1 l2 : List α} (h : List.Perm l1 l2) (f : α → Bool) :
    l1.any f = l2.any f := by
  induction h with
  | nil => rfl
  | cons x _ ih => simp [List.any_cons, ih]
  | swap x y l => simp [List.any_cons, Bool.or_left_comm]
  | trans _ _ ih1 ih2 => exact ih1.trans ih2

/-- Claim C1: the claim states that truncation fires exactly when step 1
removed an xd marker, predicting clean_station_name "nodexbunit" =
"node_unit". The code instead compares the fully substituted string with
the original input, so the xb substitution alone triggers the truncation
and the function returns "node_". This contradicts the docstring of
clean_station_name, which ties the removal of the last four characters to
the xd rule only. -/
theorem clean_nodexbunit_code_behavior :
    clean_station_name "nodexbunit" = "node_" ∧
    clean_station_name "nodexbunit" ≠ "node_unit" := by
  constructor
  · decide
  · decide

/-- Claim C4, counterexample: the claimed value "devic" is off by one;
removing the last four characters of the ten-character "device_993"
leaves the six characters "device". -/
theorem clean_device_xd993_ne_devic :
    clean_station_name "device_xd993" ≠ "devic" := by decide

/-- Claim C4 (amended): clean_station_name "device_xd993" removes the xd
marker before the digit 9, giving "device_993", and since a change
occurred the last four characters are dropped, giving "device". -/
theorem clean_device_xd993_eq_device :
    step1 "device_xd993".data = "device_993".data ∧
    clean_station_name "device_xd993" = "device" := by
  constructor
  · decide
  · decide

/-- Claim C6: an input with no xd-digit marker, no xb and no xa is
returned unchanged, and the empty string maps to the empty string. -/
theorem clean_id_of_no_markers_and_empty :
    (∀ s : String, hasXdDigit s.data = false → hasXb s.data = false →
      hasXa s.data = false → clean_station_name s = s) ∧
    clean_station_name "" = "" :=
  ⟨fun s h1 h2 h3 => clean_fixed_of_no_markers s h1 h2 h3, rfl⟩

/-- Witness for claim C6 at the marker-free input station-07. -/
theorem clean_id_of_no_markers_and_empty_witness :
    hasXdDigit "station-07".data = false ∧ clean_station_name "station-07" = "station-07" :=
  ⟨by decide,
    clean_id_of_no_markers_and_empty.1 "station-07" (by decide) (by decide) (by decide)⟩

/-- Claim C7: whenever the output of clean_station_name contains no
further xd-digit, xb or xa occurrence, applying the function again leaves
it unchanged. -/
theorem clean_conditionally_idempotent (x : String)
    (h1 : hasXdDigit (clean_station_name x).data = false)
    (h2 : hasXb (clean_station_name x).data = false)
    (h3 : hasXa (clean_station_name x).data = false) :
    clean_station_name (clean_station_name x) = clean_station_name x :=
  clean_fixed_of_no_markers (clean_station_name x) h1 h2 h3

/-- Witness for claim C7 at the input nodexbunit, whose cleaned form
node_ has no further marker. -/
theorem clean_conditionally_idempotent_witness :
    hasXb (clean_station_name "nodexbunit").data = false ∧
    clean_station_name (clean_station_name "nodexbunit") = clean_station_name "nodexbunit" :=
  ⟨by decide,
    clean_conditionally_idempotent "nodexbunit" (by decide) (by decide) (by decide)⟩

/-- Claim C8: when the truncation branch fires and the substituted string
is shorter than four characters, the result is the empty string; the
Nat-truncated take never goes negative. -/
theorem clean_truncation_total (s : String) (hne : cleaned_of s ≠ s.data)
    (hlen : (cleaned_of s).length < 4) : clean_station_name s = "" := by
  have hs : s ≠ "" := by
    intro h
    subst h
    exact hne rfl
  rw [clean_station_name, if_neg hs, if_neg hne,
    Nat.sub_eq_zero_of_le (Nat.le_of_lt hlen), List.take_zero]

/-- Witness for claim C8 at the input xd1, cleaned to the single digit 1
and then truncated to the empty string. -/
theorem clean_truncation_total_witness :
    cleaned_of "xd1" ≠ "xd1".data ∧ (cleaned_of "xd1").length < 4 ∧
    clean_station_name "xd1" = "" :=
  ⟨by decide, by decide, clean_truncation_total "xd1" (by decide) (by decide)⟩

/-- Claim C9: an xd occurrence not followed by a digit, with no xb and no
xa present, is neither removed nor does it trigger the truncation; the
input comes back unchanged. -/
theorem clean_xd_without_digit_unchanged (s : String) (_h0 : hasXd s.data = true)
    (h1 : hasXdDigit s.data = false) (h2 : hasXb s.data = false)
    (h3 : hasXa s.data = false) : clean_station_name s = s :=
  clean_fixed_of_no_markers s h1 h2 h3

/-- Witness for claim C9 at the input xdAB. -/
theorem clean_xd_without_digit_unchanged_witness :
    hasXd "xdAB".data = true ∧ clean_station_name "xdAB" = "xdAB" :=
  ⟨by decide,
    clean_xd_without_digit_unchanged "xdAB" (by decide) (by decide) (by decide) (by decide)⟩

/-- Claim C2, counterexample: an ORDINARY device whose port references
leaf1, a station referenced by an unmanaged switch, still renders the
reference as a link, because the code keys the decision on the raw name
of the subject device rather than on the referenced identifier. -/
theorem link_suppression_ignores_remote_cex :
    role exOrdinary = Role.ordinary ∧
    (connected_remote_stations exOrdinary).contains "leaf1" = true ∧
    devices_referenced_by_switches [exUnmanaged, exOrdinary] "leaf1" = true ∧
    should_disable_link [exUnmanaged, exOrdinary] exOrdinary "leaf1" = false := by
  refine ⟨by decide, by decide, by decide, by decide⟩

/-- Claim C2 (amended): for an ORDINARY subject the decision is uniform in
the referenced identifier; every reference the subject renders is
suppressed exactly when the raw station name of the subject itself lies in
devices_referenced_by_switches. -/
theorem ordinary_suppression_uniform_in_remote (devs : List Device) (d : Device)
    (r : String) (h : role d = Role.ordinary) :
    should_disable_link devs d r =
      devices_referenced_by_switches devs (name_of_station_raw d) := by
  cases hsc : is_scalance d with
  | true =>
      rw [role, if_pos hsc] at h
      exact absurd h (by decide)
  | false =>
      cases hun : is_unmanaged d with
      | true =>
          rw [role, if_neg (by simp [hsc]), if_pos hun] at h
          exact absurd h (by decide)
      | false =>
          simp [should_disable_link, disable_links, is_not_switch, hsc, hun]

/-- Witness for claim C2 (amended) at the ordinary device and an arbitrary
fresh remote identifier. -/
theorem ordinary_suppression_uniform_in_remote_witness :
    role exOrdinary = Role.ordinary ∧
    should_disable_link [exUnmanaged, exOrdinary] exOrdinary "other" =
      devices_referenced_by_switches [exUnmanaged, exOrdinary]
        (name_of_station_raw exOrdinary) :=
  ⟨by decide,
    ordinary_suppression_uniform_in_remote [exUnmanaged, exOrdinary] exOrdinary "other"
      (by decide)⟩

/-- Claim C3: a SCALANCE subject suppresses a reference exactly when the
raw remote identifier lies in scalance_dual_referenced, and an UNMANAGED
subject never suppresses a reference. -/
theorem scalance_and_unmanaged_suppression (devs : List Device) (d : Device) (r : String) :
    (role d = Role.scalance →
      should_disable_link devs d r = scalance_dual_referenced devs r) ∧
    (role d = Role.unmanaged → should_disable_link devs d r = false) := by
  constructor
  · intro h
    have hsc : is_scalance d = true := by
      cases hsc : is_scalance d with
      | true => rfl
      | false =>
          rw [role, if_neg (by simp [hsc])] at h
          split at h <;> exact absurd h (by decide)
    simp [should_disable_link, disable_links, is_not_switch, hsc]
  · intro h
    have hsc : is_scalance d = false := by
      cases hsc : is_scalance d with
      | true =>
          rw [role, if_pos hsc] at h
          exact absurd h (by decide)
      | false => rfl
    have hun : is_unmanaged d = true := by
      cases hun : is_unmanaged d with
      | true => rfl
      | false =>
          rw [role, if_neg (by simp [hsc]), if_neg (by simp [hun])] at h
          exact absurd h (by decide)
    simp [should_disable_link, disable_links, is_not_switch, hsc, hun]

/-- Witness for claim C3 on the three-device scenario of the spec: the
SCALANCE subject suppresses its reference to the dually referenced leaf1,
and the unmanaged switch suppresses nothing. -/
theorem scalance_and_unmanaged_suppression_witness :
    role exScalance = Role.scalance ∧
    should_disable_link [exUnmanaged, exScalance, exLeaf] exScalance "leaf1" =
      scalance_dual_referenced [exUnmanaged, exScalance, exLeaf] "leaf1" ∧
    role exUnmanaged = Role.unmanaged ∧
    should_disable_link [exUnmanaged, exScalance, exLeaf] exUnmanaged "leaf1" = false :=
  ⟨by decide,
    (scalance_and_unmanaged_suppression [exUnmanaged, exScalance, exLeaf] exScalance
      "leaf1").1 (by decide),
    by decide,
    (scalance_and_unmanaged_suppression [exUnmanaged, exScalance, exLeaf] exUnmanaged
      "leaf1").2 (by decide)⟩

/-- Claim C5: every permutation of the device list yields the same
membership in the four reference sets and the same suppression decision
for every subject device and raw remote identifier. -/
theorem suppression_perm_invariant (l1 l2 : List Device) (h : List.Perm l1 l2) :
    (∀ r, devices_referenced_by_unmanaged l1 r = devices_referenced_by_unmanaged l2 r) ∧
    (∀ r, devices_referenced_by_scalance l1 r = devices_referenced_by_scalance l2 r) ∧
    (∀ r, devices_referenced_by_switches l1 r = devices_referenced_by_switches l2 r) ∧
    (∀ r, scalance_dual_referenced l1 r = scalance_dual_referenced l2 r) ∧
    (∀ d r, should_disable_link l1 d r = should_disable_link l2 d r) := by
  have hu : ∀ r, devices_referenced_by_unmanaged l1 r = devices_referenced_by_unmanaged l2 r :=
    fun r => any_perm h _
  have hs : ∀ r, devices_referenced_by_scalance l1 r = devices_referenced_by_scalance l2 r :=
    fun r => any_perm h _
  have hw : ∀ r, devices_referenced_by_switches l1 r = devices_referenced_by_switches l2 r :=
    fun r => any_perm h _
  have hd : ∀ r, scalance_dual_referenced l1 r = scalance_dual_referenced l2 r := by
    intro r
    rw [scalance_dual_referenced, scalance_dual_referenced, hu r, hs r]
  refine ⟨hu, hs, hw, hd, ?_⟩
  intro d r
  rw [should_disable_link, should_disable_link, disable_links, disable_links,
    hw (name_of_station_raw d), hd r]

/-- Witness for claim C5 on a two-element device list and its swap. -/
theorem suppression_perm_invariant_witness :
    should_disable_link [exUnmanaged, exLeaf] exLeaf "usw1" =
      should_disable_link [exLeaf, exUnmanaged] exLeaf "usw1" :=
  (suppression_perm_invariant [exUnmanaged, exLeaf] [exLeaf, exUnmanaged]
    (List.Perm.swap exLeaf exUnmanaged [])).2.2.2.2 exLeaf "usw1"

/-- Claim C10: a linked reference displays clean_station_name of the raw
remote identifier, and that text coincides with the H1 title and the Name
of Station field of any device whose raw station identifier, after the
empty-name fallback, equals the referenced identifier. -/
theorem link_target_consistency (d : Device) (r : String)
    (h : name_of_station_raw d = r) :
    remote_station r = name_of_station d ∧
    remote_station_line false r =
      "- **Remote Station**: [[" ++ name_of_station d ++ "]]\n" ∧
    title_line d = "# " ++ remote_station r ++ "\n" ∧
    name_of_station_line d = "- **Name of Station**: " ++ remote_station r ++ "\n" := by
  subst h
  exact ⟨rfl, rfl, rfl, rfl⟩

/-- Witness for claim C10 at the leaf1 device. -/
theorem link_target_consistency_witness :
    name_of_station_raw exLeaf = "leaf1" ∧
    title_line exLeaf = "# " ++ remote_station "leaf1" ++ "\n" :=
  ⟨by decide, (link_target_consistency exLeaf "leaf1" (by decide)).2.2.1⟩
